import Mathlib

/-!
Verification development for the vectorize repository (src/predict.py).

The program exposes one operation, `Predictor.predict`: it validates nine
request parameters (declared via cog `Input` constraints, src/predict.py
lines 26-77), opens the input image with PIL (line 86), builds a `vtracer`
command as a list of separately quoted arguments (lines 110-122), runs it
as a subprocess with `check=True` (lines 144-149), reads the output file
size (line 159), computes display metrics (lines 160, 173) and returns the
generated temporary output path (lines 107, 185).

The embedding below models the Python code over an explicit environment
(`Env`) standing for the external collaborators: the image decoder (PIL),
the filesystem sizes, and the external tracing engine subprocess. Python
floats are idealized as rationals; a Python exception is an explicit
`PredictError` value.
-/

/-- The nine request parameters of `predict` other than the image itself
(src/predict.py lines 31-76). `segment_length` is a Python float, idealized
as a rational. -/
structure Params where
  color_mode : String
  hierarchical : String
  filter_speckle : Int
  color_precision : Int
  layer_difference : Int
  corner_threshold : Int
  segment_length : ℚ
  splice_threshold : Int
  deriving DecidableEq, Repr

/-- The declared defaults (src/predict.py lines 34, 39, 43, 49, 55, 61, 67, 73). -/
def defaultParams : Params :=
  { color_mode := "color"
    hierarchical := "stacked"
    filter_speckle := 4
    color_precision := 6
    layer_difference := 16
    corner_threshold := 60
    segment_length := 10
    splice_threshold := 45 }

/-- Modelled from the spec: the constraint enforcement that the cog serving
framework performs for the `Input` declarations of src/predict.py lines
31-76 (the `choices`, `ge` and `le` keyword arguments are in src; the code
enforcing them lives in the cog dependency, outside this repository).
Returns `some name` for the first parameter, in declaration order, whose
value violates its declared domain, and `none` when every parameter is in
domain. The spec states this validation is a hard gate that runs before
the predict body. -/
def validate (p : Params) : Option String :=
  if p.color_mode ≠ "color" ∧ p.color_mode ≠ "binary" then some "color_mode"
  else if p.hierarchical ≠ "stacked" ∧ p.hierarchical ≠ "cutout" then some "hierarchical"
  else if ¬ (0 ≤ p.filter_speckle ∧ p.filter_speckle ≤ 100) then some "filter_speckle"
  else if ¬ (1 ≤ p.color_precision ∧ p.color_precision ≤ 8) then some "color_precision"
  else if ¬ (0 ≤ p.layer_difference ∧ p.layer_difference ≤ 100) then some "layer_difference"
  else if ¬ (0 ≤ p.corner_threshold ∧ p.corner_threshold ≤ 180) then some "corner_threshold"
  else if ¬ (7/2 ≤ p.segment_length ∧ p.segment_length ≤ 50) then some "segment_length"
  else if ¬ (0 ≤ p.splice_threshold ∧ p.splice_threshold ≤ 180) then some "splice_threshold"
  else none

/-- The declared parameter domains, as the spec's table states them:
enum sets for `color_mode` and `hierarchical`, inclusive numeric bounds
for the six numeric parameters. -/
def inDomain (p : Params) : Prop :=
  (p.color_mode = "color" ∨ p.color_mode = "binary") ∧
  (p.hierarchical = "stacked" ∨ p.hierarchical = "cutout") ∧
  (0 ≤ p.filter_speckle ∧ p.filter_speckle ≤ 100) ∧
  (1 ≤ p.color_precision ∧ p.color_precision ≤ 8) ∧
  (0 ≤ p.layer_difference ∧ p.layer_difference ≤ 100) ∧
  (0 ≤ p.corner_threshold ∧ p.corner_threshold ≤ 180) ∧
  (7/2 ≤ p.segment_length ∧ p.segment_length ≤ 50) ∧
  (0 ≤ p.splice_threshold ∧ p.splice_threshold ≤ 180)

instance (p : Params) : Decidable (inDomain p) := by
  unfold inDomain; infer_instance

/-- What PIL `Image.open` reports about the input (src/predict.py lines 86-90):
format, pixel size and mode. Only the pixel size feeds a computation. -/
structure ImageInfo where
  format : String
  width : Nat
  height : Nat
  mode : String
  deriving DecidableEq, Repr

/-- Outcome of one `subprocess.run` of the engine (src/predict.py lines
144-149, with `capture_output=True, text=True`): exit status, captured
standard error, and the bytes the engine left at the output path
(`none` when it created no file there). -/
structure EngineResult where
  exitCode : Int
  stderr : String
  outBytes : Option (List Nat)
  deriving DecidableEq, Repr

/-- The external collaborators of `predict`: PIL decoding, the input file
size, the subprocess launcher, and the elapsed wall-clock time measured at
src/predict.py line 158 (idealized as a rational). -/
structure Env where
  decodeImage : String → Option ImageInfo
  inputSize : String → Nat
  runEngine : List String → EngineResult
  elapsed : ℚ

/-- A Python exception surfaced by `predict`:
`validationError` from the cog gate (naming the parameter),
`imageDecodeError` from `Image.open` (line 86),
`engineExecutionError` from `subprocess.CalledProcessError` (lines 152-155,
carrying `e.stderr`), `fileNotFoundError` from `os.path.getsize` on a
missing output (line 159), and `zeroDivisionError` from the throughput
division (line 173). -/
inductive PredictError where
  | validationError (param : String)
  | imageDecodeError
  | engineExecutionError (stderr : String)
  | fileNotFoundError
  | zeroDivisionError
  deriving DecidableEq, Repr

/-- The vtracer command of src/predict.py lines 110-122: the binary name
followed by flag/value pairs, each numeric value coerced to text with
`str(...)`, kept as a list of discrete arguments (argv), never joined into
one shell string. -/
def buildCmd (image output : String) (p : Params) : List String :=
  [ "vtracer",
    "--input", image,
    "--output", output,
    "--colormode", p.color_mode,
    "--hierarchical", p.hierarchical,
    "--filter_speckle", toString p.filter_speckle,
    "--color_precision", toString p.color_precision,
    "--layer_difference", toString p.layer_difference,
    "--corner_threshold", toString p.corner_threshold,
    "--length_threshold", toString p.segment_length,
    "--splice_threshold", toString p.splice_threshold ]

/-- The compression ratio of src/predict.py line 160:
`(1 - output_size / file_size) * 100 if file_size > 0 else 0`. -/
def compression_ratio (file_size output_size : Nat) : ℚ :=
  if file_size > 0 then (1 - (output_size : ℚ) / (file_size : ℚ)) * 100 else 0

/-- Observable outcome of one call to `predict`: the returned output path
or the exception, the list of subprocess commands that were started, and
the bytes of the produced artifact when the engine wrote one. -/
instance : DecidableEq (Except PredictError String) := fun x y =>
  match x, y with
  | .ok a, .ok b => decidable_of_iff (a = b) (by simp)
  | .error a, .error b => decidable_of_iff (a = b) (by simp)
  | .ok _, .error _ => isFalse (by simp)
  | .error _, .ok _ => isFalse (by simp)

structure Trace where
  result : Except PredictError String
  engineCalls : List (List String)
  artifact : Option (List Nat)
  deriving Repr

/-- The `predict` operation of src/predict.py lines 26-185 over environment
`env`, with `tmp` the fresh base name drawn by `tempfile.mktemp` (line 107,
which appends the ".svg" suffix and does not look at the image). Steps, in
source order: the cog validation gate on the declared parameter domains;
`Image.open` (line 86, `imageDecodeError` when the input is not an image);
command construction (lines 110-122); one `subprocess.run` with
`check=True` (lines 144-149, re-raised with captured stderr on non-zero
exit, lines 152-155); `os.path.getsize` on the output (line 159,
`fileNotFoundError` when the engine wrote no file); the metrics display,
whose throughput expression divides by the elapsed time with no
special-case (line 173); and the return of the output path (line 185). -/
def predict (env : Env) (tmp image : String) (p : Params) : Trace :=
  match validate p with
  | some name => ⟨.error (.validationError name), [], none⟩
  | none =>
    match env.decodeImage image with
    | none => ⟨.error .imageDecodeError, [], none⟩
    | some _img =>
      let output_path := tmp ++ ".svg"
      let cmd := buildCmd image output_path p
      let r := env.runEngine cmd
      if r.exitCode ≠ 0 then
        ⟨.error (.engineExecutionError r.stderr), [cmd], none⟩
      else
        match r.outBytes with
        | none => ⟨.error .fileNotFoundError, [cmd], none⟩
        | some bs =>
          if env.elapsed = 0 then
            ⟨.error .zeroDivisionError, [cmd], some bs⟩
          else
            ⟨.ok output_path, [cmd], some bs⟩

/-- The command list with the value of the `--output` flag (index 4 of
`buildCmd`) blanked out: two commands agreeing up to `eraseOutputArg`
differ at most in the destination path handed to the engine. -/
def eraseOutputArg (cmd : List String) : List String := cmd.set 4 ""

/-! ### Concrete sample environments -/

/-- Sample decode result: a 100 by 100 pixel PNG. -/
def okImage : ImageInfo := ⟨"PNG", 100, 100, "RGB"⟩

/-- Environment where decoding succeeds and the engine exits 0 after
writing a small non-empty file, with 2 seconds elapsed. -/
def envOk : Env :=
  { decodeImage := fun _ => some okImage
    inputSize := fun _ => 10000
    runEngine := fun _ => ⟨0, "", some [60, 115, 118, 103]⟩
    elapsed := 2 }

/-- Environment whose engine exits with status 1 and the stderr text of
the spec's failure scenario, writing no output file. -/
def envFail : Env :=
  { decodeImage := fun _ => some okImage
    inputSize := fun _ => 10000
    runEngine := fun _ => ⟨1, "invalid color mode", none⟩
    elapsed := 2 }

/-- Environment whose input file is not a decodable image. -/
def envBadImage : Env :=
  { decodeImage := fun _ => none
    inputSize := fun _ => 10000
    runEngine := fun _ => ⟨0, "", some [60]⟩
    elapsed := 2 }

/-- Environment whose engine exits 0 yet writes no output file. -/
def envNoFile : Env :=
  { decodeImage := fun _ => some okImage
    inputSize := fun _ => 10000
    runEngine := fun _ => ⟨0, "", none⟩
    elapsed := 2 }

/-- Environment whose engine exits 0 and leaves an empty (zero-byte)
output file. -/
def envEmpty : Env :=
  { decodeImage := fun _ => some okImage
    inputSize := fun _ => 10000
    runEngine := fun _ => ⟨0, "", some []⟩
    elapsed := 2 }

/-- Environment with a successful engine run but zero measured elapsed
time, for an input image of the given pixel dimensions. -/
def envZeroWith (w h : Nat) : Env :=
  { decodeImage := fun _ => some ⟨"PNG", w, h, "RGB"⟩
    inputSize := fun _ => 10000
    runEngine := fun _ => ⟨0, "", some [60, 115]⟩
    elapsed := 0 }

/-! ### Helper lemmas -/

lemma validate_eq_none_iff (p : Params) : validate p = none ↔ inDomain p := by
  unfold validate inDomain
  split_ifs <;> simp_all
  tauto

lemma predict_invalid (env : Env) (tmp image : String) (p : Params) (name : String)
    (hv : validate p = some name) :
    predict env tmp image p = ⟨.error (.validationError name), [], none⟩ := by
  unfold predict
  rw [hv]

lemma predict_nodecode (env : Env) (tmp image : String) (p : Params)
    (hv : validate p = none) (hd : env.decodeImage image = none) :
    predict env tmp image p = ⟨.error .imageDecodeError, [], none⟩ := by
  unfold predict
  rw [hv, hd]

lemma predict_spec (env : Env) (tmp image : String) (p : Params) (img : ImageInfo)
    (hv : validate p = none) (hd : env.decodeImage image = some img) :
    predict env tmp image p =
      if (env.runEngine ( buildCmd image (tmp ++ ".svg") p)).exitCode ≠ 0 then
        ⟨.error (.engineExecutionError (env.runEngine ( buildCmd image (tmp ++ ".svg") p)).stderr),
         [ buildCmd image (tmp ++ ".svg") p], none⟩
      else
        match (env.runEngine ( buildCmd image (tmp ++ ".svg") p)).outBytes with
        | none => ⟨.error .fileNotFoundError, [ buildCmd image (tmp ++ ".svg") p], none⟩
        | some bs =>
          if env.elapsed = 0 then
            ⟨.error .zeroDivisionError, [ buildCmd image (tmp ++ ".svg") p], some bs⟩
          else
            ⟨.ok (tmp ++ ".svg"), [ buildCmd image (tmp ++ ".svg") p], some bs⟩ := by
  unfold predict
  rw [hv, hd]

lemma predict_ok_path (env : Env) (tmp image : String) (p : Params) (path : String)
    (h : (predict env tmp image p).result = .ok path) :
    path = tmp ++ ".svg" ∧
    (predict env tmp image p).engineCalls = [ buildCmd image (tmp ++ ".svg") p] ∧
    (∃ bs, (env.runEngine ( buildCmd image (tmp ++ ".svg") p)).outBytes = some bs) := by
  revert h
  rcases hval : validate p with _ | name
  · rcases hdec : env.decodeImage image with _ | img
    · rw [predict_nodecode env tmp image p hval hdec]
      intro h
      simp at h
    · rw [predict_spec env tmp image p img hval hdec]
      by_cases hc : (env.runEngine ( buildCmd image (tmp ++ ".svg") p)).exitCode ≠ 0
      · rw [if_pos hc]
        intro h
        simp at h
      · rw [if_neg hc]
        rcases hob : (env.runEngine ( buildCmd image (tmp ++ ".svg") p)).outBytes with _ | bs
        · intro h
          simp at h
        · dsimp only
          by_cases he : env.elapsed = 0
          · rw [if_pos he]
            intro h
            simp at h
          · rw [if_neg he]
            intro h
            simp only [Except.ok.injEq] at h
            exact ⟨h.symm, rfl, bs, rfl⟩
  · rw [predict_invalid env tmp image p name hval]
    intro h
    simp at h

/-! ### Claims -/

/-- C1: whenever any of the request parameters is outside its declared
bounds or enum set, the operation fails with a ValidationError and the
engine subprocess list is empty: no command is ever handed to the
Tracing Invoker. -/
theorem C1_validation_gate (env : Env) (tmp image : String) (p : Params)
    (h : ¬ inDomain p) :
    (∃ name, (predict env tmp image p).result = .error (.validationError name)) ∧
    (predict env tmp image p).engineCalls = [] := by
  have hv : ∃ name, validate p = some name := by
    rcases hval : validate p with _ | name
    · exact absurd ((validate_eq_none_iff p).mp hval) h
    · exact ⟨name, rfl⟩
  rcases hv with ⟨name, hname⟩
  unfold predict
  rw [hname]
  exact ⟨⟨name, rfl⟩, rfl⟩

/-- Witness for C1 at the spec's own scenario, filter_speckle = 101. -/
theorem C1_validation_gate_witness :
    (¬ inDomain { defaultParams with filter_speckle := 101 }) ∧
    ((∃ name, (predict envOk "t" "in.png" { defaultParams with filter_speckle := 101 }).result
        = .error (.validationError name)) ∧
      (predict envOk "t" "in.png" { defaultParams with filter_speckle := 101 }).engineCalls = []) :=
  ⟨by norm_num [inDomain, defaultParams],
   C1_validation_gate envOk "t" "in.png" _ (by norm_num [inDomain, defaultParams])⟩

/-- C2: each numeric parameter accepts values exactly at its inclusive
bounds and rejects values one unit outside, with the rejection naming that
parameter; each enum parameter accepts every declared value and rejects
every string outside the declared set, naming that parameter. -/
theorem C2_bounds_and_enums :
    ( validate { defaultParams with filter_speckle := 0 } = none
    ∧ validate { defaultParams with filter_speckle := 100 } = none
    ∧ validate { defaultParams with filter_speckle := -1 } = some "filter_speckle"
    ∧ validate { defaultParams with filter_speckle := 101 } = some "filter_speckle"
    ∧ validate { defaultParams with color_precision := 1 } = none
    ∧ validate { defaultParams with color_precision := 8 } = none
    ∧ validate { defaultParams with color_precision := 0 } = some "color_precision"
    ∧ validate { defaultParams with color_precision := 9 } = some "color_precision"
    ∧ validate { defaultParams with layer_difference := 0 } = none
    ∧ validate { defaultParams with layer_difference := 100 } = none
    ∧ validate { defaultParams with layer_difference := -1 } = some "layer_difference"
    ∧ validate { defaultParams with layer_difference := 101 } = some "layer_difference"
    ∧ validate { defaultParams with corner_threshold := 0 } = none
    ∧ validate { defaultParams with corner_threshold := 180 } = none
    ∧ validate { defaultParams with corner_threshold := -1 } = some "corner_threshold"
    ∧ validate { defaultParams with corner_threshold := 181 } = some "corner_threshold"
    ∧ validate { defaultParams with segment_length := 7/2 } = none
    ∧ validate { defaultParams with segment_length := 50 } = none
    ∧ validate { defaultParams with segment_length := 5/2 } = some "segment_length"
    ∧ validate { defaultParams with segment_length := 51 } = some "segment_length"
    ∧ validate { defaultParams with splice_threshold := 0 } = none
    ∧ validate { defaultParams with splice_threshold := 180 } = none
    ∧ validate { defaultParams with splice_threshold := -1 } = some "splice_threshold"
    ∧ validate { defaultParams with splice_threshold := 181 } = some "splice_threshold"
    ∧ validate { defaultParams with color_mode := "binary" } = none
    ∧ validate { defaultParams with hierarchical := "cutout" } = none
    ∧ validate defaultParams = none)
    ∧ (∀ s : String, s ≠ "color" → s ≠ "binary" →
        validate { defaultParams with color_mode := s } = some "color_mode")
    ∧ (∀ s : String, s ≠ "stacked" → s ≠ "cutout" →
        validate { defaultParams with hierarchical := s } = some "hierarchical") := by
  refine ⟨by norm_num [validate, defaultParams], ?_, ?_⟩
  · intro s h1 h2
    simp [validate, defaultParams, h1, h2]
  · intro s h1 h2
    simp [validate, defaultParams, h1, h2]

/-- Witness for C2: out-of-set enum values are rejected by name. -/
theorem C2_bounds_and_enums_witness :
    validate { defaultParams with color_mode := "neon" } = some "color_mode" ∧
    validate { defaultParams with hierarchical := "flat" } = some "hierarchical" :=
  ⟨C2_bounds_and_enums.2.1 "neon" (by decide) (by decide),
   C2_bounds_and_enums.2.2 "flat" (by decide) (by decide)⟩

/-- C3: for every valid parameter set whose image decodes, exactly one
engine invocation is constructed, as a list of discrete argv entries
(never one shell string): the binary name followed by flag/value pairs for
input path, output path, color mode, hierarchical mode, speckle filter,
color precision, layer difference, corner threshold, segment-length
threshold and splice threshold, each numeric value coerced to text. -/
theorem C3_single_argv_invocation (env : Env) (tmp image : String) (p : Params)
    (img : ImageInfo) (hv : validate p = none) (hd : env.decodeImage image = some img) :
    (predict env tmp image p).engineCalls =
      [[ "vtracer",
         "--input", image,
         "--output", tmp ++ ".svg",
         "--colormode", p.color_mode,
         "--hierarchical", p.hierarchical,
         "--filter_speckle", toString p.filter_speckle,
         "--color_precision", toString p.color_precision,
         "--layer_difference", toString p.layer_difference,
         "--corner_threshold", toString p.corner_threshold,
         "--length_threshold", toString p.segment_length,
         "--splice_threshold", toString p.splice_threshold ]] := by
  unfold predict
  rw [hv, hd]
  dsimp only
  split
  · rfl
  · split
    · rfl
    · split <;> rfl

/-- Witness for C3 at the default parameters in a successful environment. -/
theorem C3_single_argv_invocation_witness :
    (predict envOk "t" "in.png" defaultParams).engineCalls =
      [[ "vtracer", "--input", "in.png", "--output", "t.svg",
         "--colormode", "color", "--hierarchical", "stacked",
         "--filter_speckle", "4", "--color_precision", "6",
         "--layer_difference", "16", "--corner_threshold", "60",
         "--length_threshold", "10", "--splice_threshold", "45" ]] := by
  have h := C3_single_argv_invocation envOk "t" "in.png" defaultParams okImage
    (by norm_num [validate, defaultParams]) rfl
  exact h.trans (by rfl)

/-- C4: whenever the engine process exits with a non-zero status, the
operation fails with an EngineExecutionError carrying the captured stderr
verbatim, and no output path is ever returned to the caller. -/
theorem C4_engine_failure (env : Env) (tmp image : String) (p : Params) (img : ImageInfo)
    (hv : validate p = none) (hd : env.decodeImage image = some img)
    (hx : (env.runEngine ( buildCmd image (tmp ++ ".svg") p)).exitCode ≠ 0) :
    (predict env tmp image p).result
      = .error (.engineExecutionError (env.runEngine ( buildCmd image (tmp ++ ".svg") p)).stderr) ∧
    ∀ path, (predict env tmp image p).result ≠ .ok path := by
  rw [predict_spec env tmp image p img hv hd, if_pos hx]
  exact ⟨rfl, fun path hp => by simp at hp⟩

/-- Witness for C4 at the spec's failure scenario: exit status 1 with
stderr "invalid color mode". -/
theorem C4_engine_failure_witness :
    (predict envFail "t" "in.png" defaultParams).result
      = .error (.engineExecutionError "invalid color mode") ∧
    ∀ path, (predict envFail "t" "in.png" defaultParams).result ≠ .ok path := by
  have h := C4_engine_failure envFail "t" "in.png" defaultParams okImage
    (by norm_num [ validate, defaultParams]) rfl (by decide)
  exact ⟨h.1, h.2⟩

/-- C5: the compression ratio equals (1 - output_size / input_size) * 100
for every positive input size, equals 0 at input size 0 without any
division failure, and takes the values 50 and -50 at the spec's two
examples. -/
theorem C5_compression_formula :
    (∀ i o : Nat, 0 < i → compression_ratio i o = (1 - (o : ℚ) / (i : ℚ)) * 100)
    ∧ (∀ o : Nat, compression_ratio 0 o = 0)
    ∧ compression_ratio 1000 500 = 50
    ∧ compression_ratio 1000 1500 = -50 := by
  refine ⟨fun i o hi => ?_, fun o => ?_, ?_, ?_⟩
  · unfold compression_ratio
    rw [if_pos hi]
  · norm_num [ compression_ratio]
  · norm_num [ compression_ratio]
  · norm_num [ compression_ratio]

/-- Witness for C5 at the spec's end-to-end scenario sizes. -/
theorem C5_compression_formula_witness :
    (0 : ℕ) < 10000 ∧ compression_ratio 10000 4000 = (1 - (4000 : ℚ) / (10000 : ℚ)) * 100 :=
  ⟨by norm_num, C5_compression_formula.1 10000 4000 (by norm_num)⟩

/-- C6 evaluation: contrary to the claim, the code has no special case for
zero elapsed time. For every image width and height, with a successful
engine run and a measured elapsed time of 0, the throughput expression of
src/predict.py line 173 divides by zero and the operation crashes with a
ZeroDivisionError instead of reporting throughput as unavailable. -/
theorem C6_zero_elapsed_crash (w h : Nat) :
    (predict (envZeroWith w h) "t" "in.png" defaultParams).result
      = .error .zeroDivisionError := by
  rw [predict_spec (envZeroWith w h) "t" "in.png" defaultParams ⟨"PNG", w, h, "RGB"⟩
      (by norm_num [ validate, defaultParams]) rfl]
  rw [if_neg (fun hcon => hcon rfl)]
  dsimp only [envZeroWith]
  rw [if_pos rfl]

/-- C7 counterexample: the engine exits 0 but leaves an empty (zero-byte)
output file, and the operation still returns a result — the non-emptiness
half of the claim is not checked by the code. -/
theorem C7_empty_output_counterexample :
    (envEmpty.runEngine ( buildCmd "in.png" ("t" ++ ".svg") defaultParams)).outBytes
      = some [] ∧
    (predict envEmpty "t" "in.png" defaultParams).result = .ok ("t" ++ ".svg") := by
  refine ⟨rfl, ?_⟩
  rw [predict_spec envEmpty "t" "in.png" defaultParams okImage
      (by norm_num [ validate, defaultParams]) rfl]
  rw [if_neg (by decide)]
  dsimp only [envEmpty]
  rw [if_neg (by norm_num)]

/-- C7 (amended): before a result is returned the output file must exist —
`os.path.getsize` fails the call with a file-not-found error when the
engine wrote no file — but non-emptiness is not checked: a successful
result guarantees only that some, possibly empty, bytes exist at the
output path. -/
theorem C7_output_exists_before_result (env : Env) (tmp image : String) (p : Params)
    (img : ImageInfo) (hv : validate p = none) (hd : env.decodeImage image = some img)
    (hx : (env.runEngine ( buildCmd image (tmp ++ ".svg") p)).exitCode = 0) :
    ((env.runEngine ( buildCmd image (tmp ++ ".svg") p)).outBytes = none →
      (predict env tmp image p).result = .error .fileNotFoundError) ∧
    (∀ path, (predict env tmp image p).result = .ok path →
      ∃ bs, (env.runEngine ( buildCmd image (tmp ++ ".svg") p)).outBytes = some bs) := by
  constructor
  · intro hb
    rw [predict_spec env tmp image p img hv hd, if_neg (fun hcon => hcon hx), hb]
  · intro path hp
    exact (predict_ok_path env tmp image p path hp).2.2

/-- Witness for C7 (amended): engine exits 0 without writing a file and
the call fails with the file-not-found error. -/
theorem C7_output_exists_before_result_witness :
    (predict envNoFile "t" "in.png" defaultParams).result = .error .fileNotFoundError := by
  have h := C7_output_exists_before_result envNoFile "t" "in.png" defaultParams okImage
    (by norm_num [ validate, defaultParams]) rfl rfl
  exact h.1 rfl

/-- C8: when the input cannot be decoded as an image (with parameters that
pass the validation gate, so control reaches the predict body), the
operation fails with an ImageDecodeError during metadata extraction and
the engine subprocess is never started. -/
theorem C8_decode_failure_gate (env : Env) (tmp image : String) (p : Params)
    (hv : validate p = none) (hd : env.decodeImage image = none) :
    (predict env tmp image p).result = .error .imageDecodeError ∧
    (predict env tmp image p).engineCalls = [] := by
  rw [predict_nodecode env tmp image p hv hd]
  exact ⟨rfl, rfl⟩

/-- Witness for C8 on an undecodable input file. -/
theorem C8_decode_failure_gate_witness :
    (predict envBadImage "t" "not_an_image.txt" defaultParams).result
      = .error .imageDecodeError ∧
    (predict envBadImage "t" "not_an_image.txt" defaultParams).engineCalls = [] :=
  C8_decode_failure_gate envBadImage "t" "not_an_image.txt" defaultParams
    (by norm_num [ validate, defaultParams]) rfl

/-- C9: with a deterministic engine — one whose observable behavior does
not depend on the generated destination path, the only command argument
that differs between two invocations on the identical image and identical
parameters — the two invocations produce byte-identical artifacts. -/
theorem C9_deterministic_idempotence (env : Env) (t1 t2 image : String) (p : Params)
    (hdet : ∀ c1 c2, eraseOutputArg c1 = eraseOutputArg c2 →
      env.runEngine c1 = env.runEngine c2) :
    (predict env t1 image p).artifact = (predict env t2 image p).artifact := by
  have hr : env.runEngine ( buildCmd image (t1 ++ ".svg") p)
      = env.runEngine ( buildCmd image (t2 ++ ".svg") p) := hdet _ _ rfl
  rcases hval : validate p with _ | name
  · rcases hdec : env.decodeImage image with _ | img
    · rw [predict_nodecode env t1 image p hval hdec, predict_nodecode env t2 image p hval hdec]
    · rw [predict_spec env t1 image p img hval hdec, predict_spec env t2 image p img hval hdec,
        hr]
      by_cases hc : (env.runEngine ( buildCmd image (t2 ++ ".svg") p)).exitCode ≠ 0
      · rw [if_pos hc, if_pos hc]
      · rw [if_neg hc, if_neg hc]
        rcases hob : (env.runEngine ( buildCmd image (t2 ++ ".svg") p)).outBytes with _ | bs
        · rfl
        · dsimp only
          by_cases he : env.elapsed = 0
          · rw [if_pos he, if_pos he]
          · rw [if_neg he, if_neg he]
  · rw [predict_invalid env t1 image p name hval, predict_invalid env t2 image p name hval]

/-- Witness for C9 with a constant (hence deterministic) engine and two
different generated temporary names. -/
theorem C9_deterministic_idempotence_witness :
    (predict envOk "a" "in.png" defaultParams).artifact
      = (predict envOk "b" "in.png" defaultParams).artifact :=
  C9_deterministic_idempotence envOk "a" "b" "in.png" defaultParams (fun _ _ _ => rfl)

/-- C10: a successful call returns exactly the generated temporary path
with the ".svg" suffix — the very string passed to the engine right after
its `--output` flag — and that path does not depend on the input image
argument. -/
theorem C10_output_path_contract (env : Env) (tmp image : String) (p : Params) (path : String)
    (h : (predict env tmp image p).result = .ok path) :
    path = tmp ++ ".svg" ∧
    (predict env tmp image p).engineCalls = [ buildCmd image (tmp ++ ".svg") p] ∧
    ( buildCmd image (tmp ++ ".svg") p)[3]? = some "--output" ∧
    ( buildCmd image (tmp ++ ".svg") p)[4]? = some path ∧
    (∀ image2 path2, (predict env tmp image2 p).result = .ok path2 → path2 = path) := by
  obtain ⟨h1, h2, _⟩ := predict_ok_path env tmp image p path h
  subst h1
  refine ⟨rfl, h2, rfl, rfl, ?_⟩
  intro image2 path2 h3
  exact (predict_ok_path env tmp image2 p path2 h3).1

/-- Witness for C10 in a successful environment. -/
theorem C10_output_path_contract_witness :
    "t" ++ ".svg" = "t" ++ ".svg" ∧
    (predict envOk "t" "in.png" defaultParams).engineCalls
      = [ buildCmd "in.png" ("t" ++ ".svg") defaultParams] ∧
    ( buildCmd "in.png" ("t" ++ ".svg") defaultParams)[3]? = some "--output" ∧
    ( buildCmd "in.png" ("t" ++ ".svg") defaultParams)[4]? = some ("t" ++ ".svg") ∧
    (∀ image2 path2, (predict envOk "t" image2 defaultParams).result = .ok path2 →
      path2 = "t" ++ ".svg") := by
  have hok : (predict envOk "t" "in.png" defaultParams).result = .ok ("t" ++ ".svg") := by
    rw [predict_spec envOk "t" "in.png" defaultParams okImage
        (by norm_num [ validate, defaultParams]) rfl]
    rw [if_neg (by decide)]
    dsimp only [envOk]
    rw [if_neg (by norm_num)]
  exact C10_output_path_contract envOk "t" "in.png" defaultParams ("t" ++ ".svg") hok
